import Mathlib

/-!
# Verification of the SW360 License Manager client layer

Shallow embedding of `src/sw360_license_manager.py`: a client-side
data-access layer translating license-catalog operations into CouchDB
HTTP requests. Python dictionaries are modelled as insertion-ordered
association lists with CPython merge semantics (`{**a, **b}`: a later
binding of an existing key updates it in place, a new key is appended).
JSON values are modelled by the inductive `JValue`. The remote document
store (an external collaborator, not part of the repository) is modelled
from the specification's contract: a selector-based `_find` endpoint
returning `{docs: [...]}` with optional `limit` and field projection.
-/

/-- A JSON-like value, the universe of Python values handled by the layer:
strings, booleans, integers, `None`, lists and dictionaries. -/
inductive JValue where
  | str (s : String)
  | bool (b : Bool)
  | num (n : Int)
  | null
  | arr (elems : List JValue)
  | obj (fields : List (String × JValue))
deriving Repr

/-- A Python dictionary with string keys, as an insertion-ordered
association list (CPython dicts preserve insertion order). -/
abbrev Doc := List (String × JValue)

mutual

/-- Boolean equality on `JValue` (structural). -/
def JValue.beq : JValue → JValue → Bool
  | .str a, .str b => a = b
  | .bool a, .bool b => a = b
  | .num a, .num b => a = b
  | .null, .null => true
  | .arr a, .arr b => JValue.beqList a b
  | .obj a, .obj b => JValue.beqObj a b
  | _, _ => false

def JValue.beqList : List JValue → List JValue → Bool
  | [], [] => true
  | x :: xs, y :: ys => JValue.beq x y && JValue.beqList xs ys
  | _, _ => false

def JValue.beqObj : List (String × JValue) → List (String × JValue) → Bool
  | [], [] => true
  | (k, v) :: xs, (k2, v2) :: ys => k = k2 && JValue.beq v v2 && JValue.beqObj xs ys
  | _, _ => false

end

mutual

theorem JValue.beq_iff : ∀ a b : JValue, JValue.beq a b = true ↔ a = b
  | .str a, .str b => by simp [JValue.beq]
  | .bool a, .bool b => by simp [JValue.beq]
  | .num a, .num b => by simp [JValue.beq]
  | .null, .null => by simp [JValue.beq]
  | .arr a, .arr b => by
      simp only [JValue.beq, JValue.beqList_iff a b, JValue.arr.injEq]
  | .obj a, .obj b => by
      simp only [JValue.beq, JValue.beqObj_iff a b, JValue.obj.injEq]
  | .str _, .bool _ | .str _, .num _ | .str _, .null | .str _, .arr _ | .str _, .obj _
  | .bool _, .str _ | .bool _, .num _ | .bool _, .null | .bool _, .arr _ | .bool _, .obj _
  | .num _, .str _ | .num _, .bool _ | .num _, .null | .num _, .arr _ | .num _, .obj _
  | .null, .str _ | .null, .bool _ | .null, .num _ | .null, .arr _ | .null, .obj _
  | .arr _, .str _ | .arr _, .bool _ | .arr _, .num _ | .arr _, .null | .arr _, .obj _
  | .obj _, .str _ | .obj _, .bool _ | .obj _, .num _ | .obj _, .null | .obj _, .arr _ => by
      simp [JValue.beq]

theorem JValue.beqList_iff : ∀ a b : List JValue, JValue.beqList a b = true ↔ a = b
  | [], [] => by simp [JValue.beqList]
  | x :: xs, y :: ys => by
      simp [JValue.beqList, JValue.beq_iff x y, JValue.beqList_iff xs ys]
  | [], _ :: _ => by simp [JValue.beqList]
  | _ :: _, [] => by simp [JValue.beqList]

theorem JValue.beqObj_iff :
    ∀ a b : List (String × JValue), JValue.beqObj a b = true ↔ a = b
  | [], [] => by simp [JValue.beqObj]
  | (k, v) :: xs, (k2, v2) :: ys => by
      simp [JValue.beqObj, JValue.beq_iff v v2, JValue.beqObj_iff xs ys, and_assoc,
        Prod.ext_iff]
  | [], _ :: _ => by simp [JValue.beqObj]
  | _ :: _, [] => by simp [JValue.beqObj]

end

instance : DecidableEq JValue := fun a b =>
  decidable_of_iff (JValue.beq a b = true) (JValue.beq_iff a b)

/-- Python `d[k]` / `d.get(k)`: look the key up in a dictionary
(keys are unique in a real dict, so the first hit is the binding). -/
def getKey : Doc → String → Option JValue
  | [], _ => none
  | (k0, v0) :: rest, k => if k0 = k then some v0 else getKey rest k

/-- Python `d[k] = v`: update an existing key in place (keeping its
position), otherwise append the new binding. -/
def setKey : Doc → String → JValue → Doc
  | [], k, v => [(k, v)]
  | (k0, v0) :: rest, k, v =>
    if k0 = k then (k, v) :: rest else (k0, v0) :: setKey rest k v

/-- CPython `{**d, **kwargs}` merge: bindings of `kwargs` are applied
left to right on top of `d`, later bindings of a key winning. -/
def mergeDict (d : Doc) (kwargs : Doc) : Doc :=
  kwargs.foldl (fun acc p => setKey acc p.1 p.2) d

/-- The last binding of a key in a key/value list (the one CPython's
merge leaves in force). -/
def lookupLast : Doc → String → Option JValue
  | [], _ => none
  | (k, v) :: rest, key =>
    match lookupLast rest key with
    | some w => some w
    | none => if k = key then some v else none

/-- The document body built by `create_license` (`license_doc` at
src/sw360_license_manager.py:192-200): fixed fields first, then the
caller's extra keyword fields merged on top. -/
def create_license_doc (full_name short_name text : String)
    (osi_approved checked : Bool) (kwargs : Doc) : Doc :=
  mergeDict
    [("type", JValue.str "license"),
     ("fullName", JValue.str full_name),
     ("shortName", JValue.str short_name),
     ("text", JValue.str text),
     ("OSIApproved", JValue.bool osi_approved),
     ("checked", JValue.bool checked)]
    kwargs

/-- The document body built by `update_license` (`license_doc` at
src/sw360_license_manager.py:254-263): `_rev` and the fixed fields
first, then the caller's extra keyword fields merged on top. -/
def update_license_doc (rev full_name short_name text : String)
    (osi_approved checked : Bool) (kwargs : Doc) : Doc :=
  mergeDict
    [("_rev", JValue.str rev),
     ("type", JValue.str "license"),
     ("fullName", JValue.str full_name),
     ("shortName", JValue.str short_name),
     ("text", JValue.str text),
     ("OSIApproved", JValue.bool osi_approved),
     ("checked", JValue.bool checked)]
    kwargs

theorem getKey_setKey_self (d : Doc) (k : String) (v : JValue) :
    getKey (setKey d k v) k = some v := by
  induction d with
  | nil => simp [setKey, getKey]
  | cons p rest ih =>
    obtain ⟨k0, v0⟩ := p
    by_cases hp : k0 = k
    · simp [setKey, getKey, hp]
    · simp [setKey, getKey, hp, ih]

theorem getKey_setKey_other (d : Doc) (k k' : String) (v : JValue) (hkk : k' ≠ k) :
    getKey (setKey d k v) k' = getKey d k' := by
  induction d with
  | nil =>
    have hk : ¬k = k' := fun h => hkk h.symm
    simp [setKey, getKey, hk]
  | cons p rest ih =>
    obtain ⟨k0, v0⟩ := p
    by_cases hp : k0 = k
    · subst hp
      have hk : ¬k0 = k' := fun h => hkk h.symm
      simp [setKey, getKey, hk]
    · by_cases hq : k0 = k'
      · subst hq
        simp [setKey, getKey, hp]
      · simp [setKey, getKey, hp, hq, ih]

/-- After a CPython-style merge, a key resolves to its last binding in
the merged-in dictionary, falling back to the base dictionary. -/
theorem getKey_mergeDict (kwargs : Doc) (d : Doc) (k : String) :
    getKey (mergeDict d kwargs) k =
      match lookupLast kwargs k with
      | some v => some v
      | none => getKey d k := by
  induction kwargs generalizing d with
  | nil => simp [mergeDict, lookupLast]
  | cons p rest ih =>
    obtain ⟨k0, v0⟩ := p
    have step : mergeDict d ((k0, v0) :: rest) = mergeDict (setKey d k0 v0) rest := rfl
    rw [step, ih]
    cases hrest : lookupLast rest k with
    | some w => simp [lookupLast, hrest]
    | none =>
      simp only [lookupLast, hrest]
      by_cases hk : k0 = k
      · subst hk
        rw [if_pos rfl, getKey_setKey_self]
      · rw [if_neg hk, getKey_setKey_other d k0 k v0 (fun h => hk h.symm)]

/-! ## Query construction (Repository layer)

Each query operation builds a CouchDB `_find` query dictionary and
POSTs it; the response's `docs` entry (defaulting to the empty list
when absent, Python `result.get("docs", [])`) is the result. -/

/-- The query dictionary built by `list_licenses`
(src/sw360_license_manager.py:152-154). Python `if limit:` is a
truthiness test, so `None` and `0` both leave the `limit` key out. -/
def list_licenses_query (limit : Option Int) : Doc :=
  let q : Doc := [("selector", JValue.obj [("type", JValue.str "license")])]
  match limit with
  | some n => if n ≠ 0 then setKey q "limit" (JValue.num n) else q
  | none => q

/-- The query dictionary built by `find_by_short_name`
(src/sw360_license_manager.py:293-298). -/
def find_by_short_name_query (short_name : String) : Doc :=
  [("selector",
    JValue.obj [("type", JValue.str "license"),
                ("shortName", JValue.str short_name)])]

/-- The query dictionary built by `get_osi_approved_licenses`
(src/sw360_license_manager.py:309-314). -/
def get_osi_approved_query : Doc :=
  [("selector",
    JValue.obj [("type", JValue.str "license"),
                ("OSIApproved", JValue.bool true)])]

/-- The query dictionary built by `get_checked_licenses`
(src/sw360_license_manager.py:325-330). -/
def get_checked_query : Doc :=
  [("selector",
    JValue.obj [("type", JValue.str "license"),
                ("checked", JValue.bool true)])]

/-- The query dictionary built by `get_unchecked_licenses`
(src/sw360_license_manager.py:341-347). -/
def get_unchecked_query : Doc :=
  [("selector",
    JValue.obj [("type", JValue.str "license"),
                ("checked", JValue.bool false)])]

/-- The query dictionary built by `count_licenses`
(src/sw360_license_manager.py:357-360): same selector as
`list_licenses`, projected to the `_id` field. -/
def count_licenses_query : Doc :=
  [("selector", JValue.obj [("type", JValue.str "license")]),
   ("fields", JValue.arr [JValue.str "_id"])]

/-- Python `result.get("docs", [])` followed by use as a list of
documents: the `docs` entry when it is an array of objects, otherwise
the default empty list. -/
def getDocs (resp : Doc) : List Doc :=
  match getKey resp "docs" with
  | some (JValue.arr xs) =>
    xs.filterMap (fun v => match v with | JValue.obj d => some d | _ => none)
  | _ => []

/-! ## Store model

Modelled from the spec (§6): the remote document store is an external
collaborator that "must support document CRUD with optimistic revision
tokens and a selector-based find endpoint returning `{docs: [...]}`".
A database state is the list of documents it holds; the find endpoint
returns the documents matching every field/value predicate of the
selector, truncated by `limit` when present and projected to `fields`
when present. -/

/-- A document satisfies a selector when every field/value predicate of
the selector holds of it (equality matching). -/
def selectorMatches (sel : Doc) (d : Doc) : Bool :=
  sel.all (fun p => getKey d p.1 = some p.2)

/-- CouchDB field projection: keep only the requested fields. -/
def projectFields (fields : List String) (d : Doc) : Doc :=
  d.filter (fun p => fields.contains p.1)

/-- Modelled from the spec (§6): the store's `_find` endpoint. Takes the
database state and the query dictionary, returns the response mapping
`{docs: [...]}`. -/
def storeFind (db : List Doc) (query : Doc) : Doc :=
  let sel := match getKey query "selector" with
    | some (JValue.obj s) => s
    | _ => []
  let matching := db.filter (selectorMatches sel)
  let limited := match getKey query "limit" with
    | some (JValue.num n) => matching.take n.toNat
    | _ => matching
  let projected := match getKey query "fields" with
    | some (JValue.arr fs) =>
      limited.map (projectFields
        (fs.filterMap (fun v => match v with | JValue.str s => some s | _ => none)))
    | _ => limited
  [("docs", JValue.arr (projected.map JValue.obj))]

/-! ## Repository query operations

Each operation is parameterized by the store's `_find` round-trip
(`find : Doc → Doc`, query dictionary to response mapping), which is
what `self._make_request("/_find", method="POST", data=query)` performs;
instantiating `find` with `storeFind db` gives the end-to-end behavior
against a database state `db`. -/

/-- Embeds `list_licenses` (src/sw360_license_manager.py:142-157). -/
def list_licenses (find : Doc → Doc) (limit : Option Int) : List Doc :=
  getDocs (find (list_licenses_query limit))

/-- Embeds `find_by_short_name` (src/sw360_license_manager.py:283-300). -/
def find_by_short_name (find : Doc → Doc) (short_name : String) : List Doc :=
  getDocs (find (find_by_short_name_query short_name))

/-- Embeds `get_osi_approved_licenses` (src/sw360_license_manager.py:302-316). -/
def get_osi_approved_licenses (find : Doc → Doc) : List Doc :=
  getDocs (find get_osi_approved_query)

/-- Embeds `get_checked_licenses` (src/sw360_license_manager.py:318-332). -/
def get_checked_licenses (find : Doc → Doc) : List Doc :=
  getDocs (find get_checked_query)

/-- Embeds `get_unchecked_licenses` (src/sw360_license_manager.py:334-348). -/
def get_unchecked_licenses (find : Doc → Doc) : List Doc :=
  getDocs (find get_unchecked_query)

/-- Embeds `count_licenses` (src/sw360_license_manager.py:350-362). -/
def count_licenses (find : Doc → Doc) : Nat :=
  (getDocs (find count_licenses_query)).length

/-- Unwrapping the store's `{docs: [...]}` response recovers the doc list. -/
theorem getDocs_mk (l : List Doc) :
    getDocs [("docs", JValue.arr (l.map JValue.obj))] = l := by
  show (l.map JValue.obj).filterMap
      (fun v => match v with | JValue.obj d => some d | _ => none) = l
  rw [List.filterMap_map]
  exact List.filterMap_some l

/-! ## End-to-end evaluation of the query operations against a database -/

theorem list_licenses_storeFind (db : List Doc) :
    list_licenses (storeFind db) none =
      db.filter (selectorMatches [("type", JValue.str "license")]) := by
  show getDocs [("docs", JValue.arr
      ((db.filter (selectorMatches [("type", JValue.str "license")])).map JValue.obj))] = _
  exact getDocs_mk _

theorem count_licenses_storeFind (db : List Doc) :
    count_licenses (storeFind db) =
      ((db.filter (selectorMatches [("type", JValue.str "license")])).map
        (projectFields ["_id"])).length := by
  show (getDocs [("docs", JValue.arr
      (((db.filter (selectorMatches [("type", JValue.str "license")])).map
        (projectFields ["_id"])).map JValue.obj))]).length = _
  rw [getDocs_mk]

theorem find_by_short_name_storeFind (db : List Doc) (short_name : String) :
    find_by_short_name (storeFind db) short_name =
      db.filter (selectorMatches
        [("type", JValue.str "license"), ("shortName", JValue.str short_name)]) := by
  show getDocs [("docs", JValue.arr
      ((db.filter (selectorMatches
        [("type", JValue.str "license"),
         ("shortName", JValue.str short_name)])).map JValue.obj))] = _
  exact getDocs_mk _

/-! ## Client-side text search -/

/-- Python `needle in hay` substring containment, on character lists. -/
def containsSub (needle : List Char) : List Char → Bool
  | [] => needle.isEmpty
  | c :: rest => needle.isPrefixOf (c :: rest) || containsSub needle rest

/-- Python `needle in hay` for strings: substring containment. -/
def pyIn (needle hay : String) : Bool := containsSub needle.data hay.data

mutual

/-- Python `str(v)`: a string is returned as itself, booleans render as
`True`/`False`, `None` as `None`, numbers in decimal, and containers by
their repr (escaping of special characters inside nested strings is not
modelled; no searched field holds a container). -/
def pyStr : JValue → String
  | .str s => s
  | .bool true => "True"
  | .bool false => "False"
  | .num n => toString n
  | .null => "None"
  | .arr xs => "[" ++ pyReprList xs ++ "]"
  | .obj ps => "\x7b" ++ pyReprObj ps ++ "\x7d"

/-- Python `repr(v)` as used for container elements: like `str` but
strings are quoted. -/
def pyRepr : JValue → String
  | .str s => "\x27" ++ s ++ "\x27"
  | .bool true => "True"
  | .bool false => "False"
  | .num n => toString n
  | .null => "None"
  | .arr xs => "[" ++ pyReprList xs ++ "]"
  | .obj ps => "\x7b" ++ pyReprObj ps ++ "\x7d"

def pyReprList : List JValue → String
  | [] => ""
  | [x] => pyRepr x
  | x :: y :: rest => pyRepr x ++ ", " ++ pyReprList (y :: rest)

def pyReprObj : List (String × JValue) → String
  | [] => ""
  | [(k, v)] => "\x27" ++ k ++ "\x27: " ++ pyRepr v
  | (k, v) :: q :: rest =>
    "\x27" ++ k ++ "\x27: " ++ pyRepr v ++ ", " ++ pyReprObj (q :: rest)

end

/-- Python `str.lower()`: lower-case each character (ASCII case
mapping, which agrees with Python on the ASCII data involved). -/
def strLower (s : String) : String := ⟨s.data.map Char.toLower⟩

/-- The per-field test of `search_licenses`
(src/sw360_license_manager.py:389): Python
`field in license and search_text.lower() in str(license[field]).lower()`. -/
def fieldTest (search_text : String) (lic : Doc) (field : String) : Bool :=
  match getKey lic field with
  | some v => pyIn (strLower search_text) (strLower (pyStr v))
  | none => false

/-- The accumulation loop of `search_licenses`
(src/sw360_license_manager.py:387-391): a document is appended when its
first matching field is found, the `break` preventing a second append. -/
def searchLoop (search_text : String) (fields : List String) : List Doc → List Doc
  | [] => []
  | lic :: rest =>
    if fields.any (fieldTest search_text lic) then
      lic :: searchLoop search_text fields rest
    else
      searchLoop search_text fields rest

/-- Embeds `search_licenses` (src/sw360_license_manager.py:364-393):
fields default to `["fullName", "shortName", "text"]` when `None`; all
licenses are fetched via `list_licenses()` and filtered client-side. -/
def search_licenses (find : Doc → Doc) (search_text : String)
    (fields : Option (List String)) : List Doc :=
  searchLoop search_text (fields.getD ["fullName", "shortName", "text"])
    (list_licenses find none)

/-- The search loop is exactly a filter by "some searched field is
present and contains the search text case-insensitively". -/
theorem searchLoop_eq_filter (t : String) (fs : List String) (l : List Doc) :
    searchLoop t fs l = l.filter (fun lic => fs.any (fieldTest t lic)) := by
  induction l with
  | nil => rfl
  | cons lic rest ih =>
    by_cases h : fs.any (fieldTest t lic) <;> simp [searchLoop, h, ih]

/-! ## Transport: configuration, credentials, request building
(src/sw360_license_manager.py:41-112) -/

/-- The UTF-8 encoding of one character, as byte values
(Python `str.encode("utf-8")`, per character). -/
def utf8EncodeCharNat (c : Char) : List Nat :=
  let n := c.toNat
  if n < 128 then [n]
  else if n < 2048 then [192 + n / 64, 128 + n % 64]
  else if n < 65536 then [224 + n / 4096, 128 + (n / 64) % 64, 128 + n % 64]
  else [240 + n / 262144, 128 + (n / 4096) % 64, 128 + (n / 64) % 64, 128 + n % 64]

/-- The UTF-8 encoding of a string (Python `str.encode("utf-8")`). -/
def utf8Bytes (s : String) : List Nat :=
  s.data.flatMap utf8EncodeCharNat

/-- The standard base64 alphabet. -/
def base64Alphabet : List Char :=
  "ABCDEFGHIJKLMNOPQRSTUVWXYZabcdefghijklmnopqrstuvwxyz0123456789+/".data

/-- One base64 digit (sextet value 0..63). -/
def b64Char (n : Nat) : Char := base64Alphabet.getD n '='

/-- Standard base64 of a byte sequence with `=` padding
(Python `base64.b64encode`). -/
def b64encode : List Nat → String
  | [] => ""
  | [a] =>
    ⟨[b64Char (a / 4), b64Char (a % 4 * 16), '=', '=']⟩
  | [a, b] =>
    ⟨[b64Char (a / 4), b64Char (a % 4 * 16 + b / 16), b64Char (b % 16 * 4), '=']⟩
  | a :: b :: c :: rest =>
    (⟨[b64Char (a / 4), b64Char (a % 4 * 16 + b / 16),
       b64Char (b % 16 * 4 + c / 64), b64Char (c % 64)]⟩ : String) ++ b64encode rest

/-- Python `url.rstrip("/")`: drop trailing slashes. -/
def rstripSlash (s : String) : String :=
  ⟨(s.data.reverse.dropWhile (· = '/')).reverse⟩

/-- The state established by `SW360LicenseManager.__init__`
(src/sw360_license_manager.py:41-64): the four instance fields, none of
which is ever reassigned by any other method. -/
structure ManagerConfig where
  url : String
  database : String
  db_url : String
  auth_header : String
deriving DecidableEq, Repr

/-- Embeds `SW360LicenseManager.__init__`
(src/sw360_license_manager.py:57-64): strip trailing slashes off the
URL, derive the database URL, and compute the Basic-auth header once
from `username:password`. -/
def initManager (url username password database : String) : ManagerConfig :=
  let u := rstripSlash url
  { url := u
  , database := database
  , db_url := u ++ "/" ++ database
  , auth_header := "Basic " ++ b64encode (utf8Bytes (username ++ ":" ++ password)) }

mutual

/-- Python `json.dumps` with default separators (escaping of special
characters inside strings is not modelled; no body serialized by the
layer relies on it). -/
def jsonDumps : JValue → String
  | .str s => "\x22" ++ s ++ "\x22"
  | .bool true => "true"
  | .bool false => "false"
  | .num n => toString n
  | .null => "null"
  | .arr xs => "[" ++ jsonDumpsList xs ++ "]"
  | .obj ps => "\x7b" ++ jsonDumpsObj ps ++ "\x7d"

def jsonDumpsList : List JValue → String
  | [] => ""
  | [x] => jsonDumps x
  | x :: y :: rest => jsonDumps x ++ ", " ++ jsonDumpsList (y :: rest)

def jsonDumpsObj : List (String × JValue) → String
  | [] => ""
  | [(k, v)] => "\x22" ++ k ++ "\x22: " ++ jsonDumps v
  | (k, v) :: q :: rest =>
    "\x22" ++ k ++ "\x22: " ++ jsonDumps v ++ ", " ++ jsonDumpsObj (q :: rest)

end

/-- An HTTP request as assembled by `_make_request`
(src/sw360_license_manager.py:86-102). -/
structure HttpRequest where
  url : String
  method : String
  headers : List (String × String)
  body : Option String
deriving DecidableEq, Repr

/-- The request `_make_request` builds before sending: URL is
`db_url + endpoint`, the two fixed headers are attached, and the body is
JSON-serialized when `data` is truthy (Python `if data:` — an empty
dictionary is falsy and sends no body). -/
def buildRequest (cfg : ManagerConfig) (endpoint method : String)
    (data : Option Doc) : HttpRequest :=
  { url := cfg.db_url ++ endpoint
  , method := method
  , headers := [("Authorization", cfg.auth_header),
                ("Content-Type", "application/json")]
  , body := match data with
      | some d => if d.isEmpty then none else some (jsonDumps (JValue.obj d))
      | none => none }

/-! ## Transport: outcome normalization (src/sw360_license_manager.py:104-112) -/

/-- The possible outcomes of one `urllib.request.urlopen` round-trip:
a 2xx response with a JSON body, a non-2xx status (urllib raises
`HTTPError` carrying the status code and the raw error body), or a
transport-level fault (`URLError` etc., carrying a cause description). -/
inductive HttpOutcome where
  | success (status : Nat) (body : Doc)
  | httpError (code : Nat) (errorBody : String)
  | transportError (reason : String)
deriving DecidableEq, Repr

/-- The two failure kinds `_make_request` raises: the `HTTPError` branch
(`"HTTP {e.code} Error: {error_data}"`) and the catch-all branch
(`"Request failed: {str(e)}"`). -/
inductive RequestError where
  | httpFailure (code : Nat) (errorBody : String)
  | transportFailure (reason : String)
deriving DecidableEq, Repr

/-- The message of the single `Exception` raised for each failure kind. -/
def RequestError.message : RequestError → String
  | .httpFailure code errorBody => "HTTP " ++ toString code ++ " Error: " ++ errorBody
  | .transportFailure reason => "Request failed: " ++ reason

/-- Embeds the `try/except` of `_make_request`
(src/sw360_license_manager.py:104-112): a 2xx response yields the parsed
body, a non-2xx status becomes `httpFailure` with the code and raw body,
and a transport fault becomes `transportFailure` with its cause; each
failure is a single synchronous raise, with no retry. -/
def make_request_result : HttpOutcome → Except RequestError Doc
  | .success _ body => .ok body
  | .httpError code errorBody => .error (.httpFailure code errorBody)
  | .transportError reason => .error (.transportFailure reason)

/-! ## Methods as instance-state transformers

Each public method of `SW360LicenseManager`, viewed as a transformer of
the instance state (`ManagerConfig`) it runs on: the Python bodies read
`self.url` / `self.db_url` / `self.auth_header` but contain no
assignment to a `self` field outside `__init__`, so each returns the
state it received together with its result. The `transport` argument is
the `urlopen` round-trip; a failing round-trip propagates as the
`Except` error. -/

def make_request_method (cfg : ManagerConfig) (transport : HttpRequest → HttpOutcome)
    (endpoint method : String) (data : Option Doc) :
    ManagerConfig × Except RequestError Doc :=
  (cfg, make_request_result (transport (buildRequest cfg endpoint method data)))

def list_licenses_method (cfg : ManagerConfig) (transport : HttpRequest → HttpOutcome)
    (limit : Option Int) : ManagerConfig × Except RequestError (List Doc) :=
  let r := make_request_method cfg transport "/_find" "POST"
    (some (list_licenses_query limit))
  (r.1, r.2.map getDocs)

def create_license_method (cfg : ManagerConfig) (transport : HttpRequest → HttpOutcome)
    (full_name short_name text : String) (osi_approved checked : Bool)
    (kwargs : Doc) : ManagerConfig × Except RequestError Doc :=
  make_request_method cfg transport "" "POST"
    (some (create_license_doc full_name short_name text osi_approved checked kwargs))

def get_license_method (cfg : ManagerConfig) (transport : HttpRequest → HttpOutcome)
    (license_id : String) : ManagerConfig × Except RequestError Doc :=
  make_request_method cfg transport ("/" ++ license_id) "GET" none

def update_license_method (cfg : ManagerConfig) (transport : HttpRequest → HttpOutcome)
    (license_id rev full_name short_name text : String)
    (osi_approved checked : Bool) (kwargs : Doc) :
    ManagerConfig × Except RequestError Doc :=
  make_request_method cfg transport ("/" ++ license_id) "PUT"
    (some (update_license_doc rev full_name short_name text osi_approved checked kwargs))

def delete_license_method (cfg : ManagerConfig) (transport : HttpRequest → HttpOutcome)
    (license_id rev : String) : ManagerConfig × Except RequestError Doc :=
  make_request_method cfg transport ("/" ++ license_id ++ "?rev=" ++ rev) "DELETE" none

def find_by_short_name_method (cfg : ManagerConfig) (transport : HttpRequest → HttpOutcome)
    (short_name : String) : ManagerConfig × Except RequestError (List Doc) :=
  let r := make_request_method cfg transport "/_find" "POST"
    (some (find_by_short_name_query short_name))
  (r.1, r.2.map getDocs)

def get_osi_approved_method (cfg : ManagerConfig) (transport : HttpRequest → HttpOutcome) :
    ManagerConfig × Except RequestError (List Doc) :=
  let r := make_request_method cfg transport "/_find" "POST" (some get_osi_approved_query)
  (r.1, r.2.map getDocs)

def get_checked_method (cfg : ManagerConfig) (transport : HttpRequest → HttpOutcome) :
    ManagerConfig × Except RequestError (List Doc) :=
  let r := make_request_method cfg transport "/_find" "POST" (some get_checked_query)
  (r.1, r.2.map getDocs)

def get_unchecked_method (cfg : ManagerConfig) (transport : HttpRequest → HttpOutcome) :
    ManagerConfig × Except RequestError (List Doc) :=
  let r := make_request_method cfg transport "/_find" "POST" (some get_unchecked_query)
  (r.1, r.2.map getDocs)

def count_licenses_method (cfg : ManagerConfig) (transport : HttpRequest → HttpOutcome) :
    ManagerConfig × Except RequestError Nat :=
  let r := make_request_method cfg transport "/_find" "POST" (some count_licenses_query)
  (r.1, r.2.map (fun resp => (getDocs resp).length))

def search_licenses_method (cfg : ManagerConfig) (transport : HttpRequest → HttpOutcome)
    (search_text : String) (fields : Option (List String)) :
    ManagerConfig × Except RequestError (List Doc) :=
  let r := list_licenses_method cfg transport none
  (r.1, r.2.map (searchLoop search_text (fields.getD ["fullName", "shortName", "text"])))

/-! ## Concrete example documents (from the repository's own examples) -/

/-- The GPL-3.0 license document the repository's example flow creates
(src/sw360_license_manager.py:462-468). -/
def gplDoc : Doc :=
  [("_id", JValue.str "lic-gpl3"),
   ("_rev", JValue.str "1-abc"),
   ("type", JValue.str "license"),
   ("fullName", JValue.str "GNU General Public License v3.0"),
   ("shortName", JValue.str "GPL-3.0"),
   ("text", JValue.str "This program is free software: you can redistribute it..."),
   ("OSIApproved", JValue.bool true),
   ("checked", JValue.bool false)]

/-- An MIT license document as in the module docstring
(src/sw360_license_manager.py:33-38). -/
def mitDoc : Doc :=
  [("_id", JValue.str "lic-mit"),
   ("_rev", JValue.str "1-def"),
   ("type", JValue.str "license"),
   ("fullName", JValue.str "MIT License"),
   ("shortName", JValue.str "MIT"),
   ("text", JValue.str "Permission is hereby granted, free of charge..."),
   ("OSIApproved", JValue.bool true),
   ("checked", JValue.bool true)]

/-! ## Claims -/

/-- C1 counterexample: the claim says the discriminator is forced to
`"license"` even when the caller supplies a different value among the
extra keyword fields, but `**kwargs` is merged last in the dict literal,
so a caller-supplied `type` wins: with `type="project"` among the extra
fields, both bodies carry `type = "project"`, not `"license"`. -/
theorem claim_C1_counterexample :
    getKey (create_license_doc "Foo License" "Foo" "" false false
      [("type", JValue.str "project")]) "type" = some (JValue.str "project") ∧
    getKey (create_license_doc "Foo License" "Foo" "" false false
      [("type", JValue.str "project")]) "type" ≠ some (JValue.str "license") ∧
    getKey (update_license_doc "1-abc" "Foo License" "Foo" "" false false
      [("type", JValue.str "project")]) "type" = some (JValue.str "project") := by
  decide

/-- C1 (amended): the bodies sent by `create_license` and
`update_license` carry the fixed discriminator `type = "license"`
exactly when the caller supplies no `type` among the extra keyword
fields; a caller-supplied `type` overrides it (extra fields are merged
last and win). -/
theorem claim_C1 (full_name short_name text rev : String)
    (osi_approved checked : Bool) (kwargs : Doc) :
    getKey (create_license_doc full_name short_name text osi_approved checked kwargs)
        "type" = some ((lookupLast kwargs "type").getD (JValue.str "license")) ∧
    getKey (update_license_doc rev full_name short_name text osi_approved checked kwargs)
        "type" = some ((lookupLast kwargs "type").getD (JValue.str "license")) := by
  constructor
  · rw [create_license_doc, getKey_mergeDict]
    cases lookupLast kwargs "type" <;> rfl
  · rw [update_license_doc, getKey_mergeDict]
    cases lookupLast kwargs "type" <;> rfl

/-- C4 counterexample: the claim says the explicit `rev` argument always
takes precedence over a caller-supplied `revision` field among the extra
fields, but `**kwargs` is merged last, so a caller-supplied `_rev` wins:
the body carries the kwargs revision, not the `rev` argument. -/
theorem claim_C4_counterexample :
    getKey (update_license_doc "1-current" "Foo License" "Foo" "" false false
      [("_rev", JValue.str "9-stale")]) "_rev" = some (JValue.str "9-stale") ∧
    getKey (update_license_doc "1-current" "Foo License" "Foo" "" false false
      [("_rev", JValue.str "9-stale")]) "_rev" ≠ some (JValue.str "1-current") := by
  decide

/-- C4 (amended): caller-supplied extra keyword fields take precedence
over server-managed fields of the same name, not the other way round:
`update_license` places the explicit `rev` argument in the body's `_rev`
only when no `_rev` appears among the extra fields, and `create_license`
places no `_id`/`_rev` of its own at all — its body carries them exactly
when the caller passes them. -/
theorem claim_C4 (rev full_name short_name text : String)
    (osi_approved checked : Bool) (kwargs : Doc) :
    getKey (update_license_doc rev full_name short_name text osi_approved checked kwargs)
        "_rev" = some ((lookupLast kwargs "_rev").getD (JValue.str rev)) ∧
    getKey (update_license_doc rev full_name short_name text osi_approved checked kwargs)
        "_id" = lookupLast kwargs "_id" ∧
    getKey (create_license_doc full_name short_name text osi_approved checked kwargs)
        "_rev" = lookupLast kwargs "_rev" ∧
    getKey (create_license_doc full_name short_name text osi_approved checked kwargs)
        "_id" = lookupLast kwargs "_id" := by
  refine ⟨?_, ?_, ?_, ?_⟩ <;>
    first
      | (rw [update_license_doc, getKey_mergeDict]
         cases lookupLast kwargs "_rev" <;> rfl)
      | (rw [update_license_doc, getKey_mergeDict]
         cases lookupLast kwargs "_id" <;> rfl)
      | (rw [create_license_doc, getKey_mergeDict]
         cases lookupLast kwargs "_rev" <;> rfl)
      | (rw [create_license_doc, getKey_mergeDict]
         cases lookupLast kwargs "_id" <;> rfl)

/-- C2: for every database state, `count_licenses()` equals the length
of `list_licenses()` with no limit: both send the same selector
(`type = "license"`), and count merely projects each returned document
to its `_id` field — which cannot change how many documents come back —
and takes the length of the `docs` list. -/
theorem claim_C2 (db : List Doc) :
    count_licenses (storeFind db) = (list_licenses (storeFind db) none).length ∧
    getKey count_licenses_query "selector" = getKey (list_licenses_query none) "selector" ∧
    getKey count_licenses_query "fields" = some (JValue.arr [JValue.str "_id"]) := by
  refine ⟨?_, rfl, rfl⟩
  rw [count_licenses_storeFind, list_licenses_storeFind, List.length_map]

/-- C3: `search_licenses` fetches all licenses and keeps exactly those
documents for which some field of the searched set (defaulting to
fullName, shortName, text) is present and contains the search text as a
case-insensitive substring, each kept document appended once (first
matching field breaks the per-document scan); concretely, searching
"gpl" over a catalog holding the repository's GPL-3.0 and MIT example
documents returns exactly the GPL document (matched via its `GPL-3.0`
short name) and excludes the MIT one. -/
theorem claim_C3 :
    (∀ (find : Doc → Doc) (search_text : String) (fields : Option (List String)),
      search_licenses find search_text fields =
        (list_licenses find none).filter
          (fun lic =>
            (fields.getD ["fullName", "shortName", "text"]).any
              (fieldTest search_text lic))) ∧
    search_licenses (storeFind [gplDoc, mitDoc]) "gpl" none = [gplDoc] := by
  constructor
  · intro find search_text fields
    exact searchLoop_eq_filter search_text _ _
  · decide

/-- C5: every non-2xx status becomes exactly the one failure kind
carrying the numeric code and the raw response body (its message is
`"HTTP {code} Error: {body}"`), every transport-level fault becomes the
second kind carrying the cause description (message
`"Request failed: {cause}"`), the two kinds are distinct, and every
outcome is either a single error or a single complete result — no
retry, no partial result. -/
theorem claim_C5 :
    (∀ (code : Nat) (errorBody : String),
      make_request_result (HttpOutcome.httpError code errorBody) =
        Except.error (RequestError.httpFailure code errorBody) ∧
      (RequestError.httpFailure code errorBody).message =
        "HTTP " ++ toString code ++ " Error: " ++ errorBody) ∧
    (∀ reason : String,
      make_request_result (HttpOutcome.transportError reason) =
        Except.error (RequestError.transportFailure reason) ∧
      (RequestError.transportFailure reason).message = "Request failed: " ++ reason) ∧
    (∀ (code : Nat) (errorBody reason : String),
      RequestError.httpFailure code errorBody ≠ RequestError.transportFailure reason) ∧
    (∀ o : HttpOutcome,
      (∃ e, make_request_result o = Except.error e) ∨
      (∃ d, make_request_result o = Except.ok d)) := by
  refine ⟨fun code errorBody => ⟨rfl, rfl⟩, fun reason => ⟨rfl, rfl⟩, ?_, ?_⟩
  · intro code errorBody reason h
    cases h
  · intro o
    cases o with
    | success status body => exact Or.inr ⟨body, rfl⟩
    | httpError code errorBody => exact Or.inl ⟨_, rfl⟩
    | transportError reason => exact Or.inl ⟨_, rfl⟩

/-- C6: `find_by_short_name(X)` sends the selector requiring both
`type = "license"` and `shortName = X`, so against any database state it
returns only documents whose `shortName` equals `X` exactly and whose
discriminator is the license type. -/
theorem claim_C6 (db : List Doc) (x : String) :
    getKey (find_by_short_name_query x) "selector" =
      some (JValue.obj [("type", JValue.str "license"),
                        ("shortName", JValue.str x)]) ∧
    ∀ d ∈ find_by_short_name (storeFind db) x,
      getKey d "shortName" = some (JValue.str x) ∧
      getKey d "type" = some (JValue.str "license") := by
  refine ⟨rfl, fun d hd => ?_⟩
  rw [find_by_short_name_storeFind] at hd
  have hm := (List.mem_filter.mp hd).2
  simp only [selectorMatches, List.all_cons, List.all_nil, Bool.and_eq_true,
    decide_eq_true_eq] at hm
  exact ⟨hm.2.1, hm.1⟩

/-- C6 witness: the MIT example document is returned by
`find_by_short_name("MIT")` on a one-document database, and the theorem
yields its exact short name and discriminator. -/
theorem claim_C6_witness :
    getKey mitDoc "shortName" = some (JValue.str "MIT") ∧
    getKey mitDoc "type" = some (JValue.str "license") :=
  (claim_C6 [mitDoc] "MIT").2 mitDoc (by decide)

/-- C7: the Basic-auth header is computed at construction as the base64
encoding of `username:password`; every request built thereafter attaches
exactly that header and the JSON content-type header, targets
`db_url + endpoint`, keeps the given method, serializes the body when a
(truthy) one is present, and two requests from the same configuration
always carry identical headers. -/
theorem claim_C7 (url username password database endpoint method : String)
    (data : Option Doc) :
    (initManager url username password database).auth_header =
      "Basic " ++ b64encode (utf8Bytes (username ++ ":" ++ password)) ∧
    (buildRequest (initManager url username password database) endpoint method data).headers =
      [("Authorization",
        "Basic " ++ b64encode (utf8Bytes (username ++ ":" ++ password))),
       ("Content-Type", "application/json")] ∧
    (buildRequest (initManager url username password database) endpoint method data).url =
      (initManager url username password database).db_url ++ endpoint ∧
    (buildRequest (initManager url username password database) endpoint method data).method =
      method ∧
    (∀ d : Doc, data = some d → d ≠ [] →
      (buildRequest (initManager url username password database) endpoint method data).body =
        some (jsonDumps (JValue.obj d))) ∧
    (∀ (endpoint2 method2 : String) (data2 : Option Doc),
      (buildRequest (initManager url username password database) endpoint method data).headers =
      (buildRequest (initManager url username password database) endpoint2 method2 data2).headers) := by
  refine ⟨rfl, rfl, rfl, rfl, fun d hd hne => ?_, fun _ _ _ => rfl⟩
  subst hd
  simp only [buildRequest]
  rw [if_neg (by simpa [List.isEmpty_iff] using hne)]

/-- C7 witness: building the `_find` request for a concrete
configuration and a nonempty body yields the serialized JSON body. -/
theorem claim_C7_witness :
    (buildRequest (initManager "http://localhost:5984" "admin" "password" "sw360db")
        "/_find" "POST" (some [("selector", JValue.obj [("type", JValue.str "license")])])).body =
      some (jsonDumps (JValue.obj
        [("selector", JValue.obj [("type", JValue.str "license")])])) :=
  (claim_C7 "http://localhost:5984" "admin" "password" "sw360db" "/_find" "POST"
      (some [("selector", JValue.obj [("type", JValue.str "license")])])).2.2.2.2.1
    [("selector", JValue.obj [("type", JValue.str "license")])] rfl (by decide)

/-- C8: no repository operation mutates the instance state established
at construction — every method (the transport helper, all queries, all
mutation request builders, and search) returns the configuration it ran
on unchanged, so repeated calls observe the same fixed url, database,
derived database URL and auth header. -/
theorem claim_C8 (cfg : ManagerConfig) (transport : HttpRequest → HttpOutcome)
    (endpoint method license_id rev full_name short_name text search_text : String)
    (osi_approved checked : Bool) (kwargs : Doc) (data : Option Doc)
    (limit : Option Int) (fields : Option (List String)) :
    (make_request_method cfg transport endpoint method data).1 = cfg ∧
    (list_licenses_method cfg transport limit).1 = cfg ∧
    (create_license_method cfg transport full_name short_name text
      osi_approved checked kwargs).1 = cfg ∧
    (get_license_method cfg transport license_id).1 = cfg ∧
    (update_license_method cfg transport license_id rev full_name short_name text
      osi_approved checked kwargs).1 = cfg ∧
    (delete_license_method cfg transport license_id rev).1 = cfg ∧
    (find_by_short_name_method cfg transport short_name).1 = cfg ∧
    (get_osi_approved_method cfg transport).1 = cfg ∧
    (get_checked_method cfg transport).1 = cfg ∧
    (get_unchecked_method cfg transport).1 = cfg ∧
    (count_licenses_method cfg transport).1 = cfg ∧
    (search_licenses_method cfg transport search_text fields).1 = cfg :=
  ⟨rfl, rfl, rfl, rfl, rfl, rfl, rfl, rfl, rfl, rfl, rfl, rfl⟩

/-- C9: `list_licenses` puts a `limit` key in its query only when the
supplied limit is truthy — the query for `limit=None` and for `limit=0`
contains no `limit` key at all (while a nonzero limit is passed
through), so `list_licenses(0)` requests every matching license rather
than zero of them. -/
theorem claim_C9 :
    getKey (list_licenses_query none) "limit" = none ∧
    getKey (list_licenses_query (some 0)) "limit" = none ∧
    (∀ n : Int, n ≠ 0 →
      getKey (list_licenses_query (some n)) "limit" = some (JValue.num n)) ∧
    (∀ db : List Doc,
      list_licenses (storeFind db) (some 0) = list_licenses (storeFind db) none ∧
      list_licenses (storeFind db) (some 0) =
        db.filter (selectorMatches [("type", JValue.str "license")])) := by
  refine ⟨rfl, rfl, ?_, fun db => ⟨rfl, list_licenses_storeFind db⟩⟩
  intro n hn
  simp only [list_licenses_query, if_pos hn]
  exact getKey_setKey_self _ _ _

/-- C9 witness: a nonzero limit (5) is passed through as the query's
`limit` key. -/
theorem claim_C9_witness :
    getKey (list_licenses_query (some 5)) "limit" = some (JValue.num 5) :=
  claim_C9.2.2.1 5 (by decide)

/-- C10: for every query operation, a store response mapping with no
`docs` field makes the operation return the empty list (and
`count_licenses` return 0) rather than fail — `result.get("docs", [])`
supplies the default. -/
theorem claim_C10 (find : Doc → Doc) (limit : Option Int) (short_name : String)
    (hdocs : ∀ q : Doc, getKey (find q) "docs" = none) :
    list_licenses find limit = [] ∧
    find_by_short_name find short_name = [] ∧
    get_osi_approved_licenses find = [] ∧
    get_checked_licenses find = [] ∧
    get_unchecked_licenses find = [] ∧
    count_licenses find = 0 := by
  have gd : ∀ q : Doc, getDocs (find q) = [] := by
    intro q
    unfold getDocs
    rw [hdocs q]
  refine ⟨gd _, gd _, gd _, gd _, gd _, ?_⟩
  show (getDocs (find count_licenses_query)).length = 0
  rw [gd _]
  rfl

/-- C10 witness: against a store whose responses carry no `docs` entry
(here: every response is the empty mapping), all six query operations
return the empty result. -/
theorem claim_C10_witness :
    list_licenses (fun _ => []) none = [] ∧
    find_by_short_name (fun _ => []) "MIT" = [] ∧
    get_osi_approved_licenses (fun _ => []) = [] ∧
    get_checked_licenses (fun _ => []) = [] ∧
    get_unchecked_licenses (fun _ => []) = [] ∧
    count_licenses (fun _ => []) = 0 :=
  claim_C10 (fun _ => []) none "MIT" (fun _ => rfl)

/-- C5 witness: a 404 becomes the HTTP failure kind with its code and
body; a refused connection becomes the transport failure kind. -/
theorem claim_C5_witness :
    make_request_result (HttpOutcome.httpError 404 "missing") =
      Except.error (RequestError.httpFailure 404 "missing") ∧
    make_request_result (HttpOutcome.transportError "connection refused") =
      Except.error (RequestError.transportFailure "connection refused") :=
  ⟨(claim_C5.1 404 "missing").1, (claim_C5.2.1 "connection refused").1⟩
